import Mathlib

/-!
# Shallow embedding of the `leadscore` scoring engine

Embeds `src/config.py`, `src/models/lead.py`, `src/services/scorer.py`,
`src/services/hubspot.py` and the threshold-update endpoint of
`src/api/alerts.py`.

Modelling conventions:
* Python floats become `ℚ`; Python ints become `ℤ` (counts, which pydantic
  keeps non-negative in `EngagementSummary`, become `ℕ`).
* Timestamps are absolute day numbers (`ℤ`); the scorer receives the current
  day `now : ℤ` and `(datetime.utcnow() - t).days` becomes `now - t`.
* Python `round(x, 2)` is round-half-to-even at two decimals (`round2`).
* Code that raises becomes `Except String`, the raised message on the left.
-/

namespace Leadscore

/-- Model of `Settings` from `src/config.py` (the fields the scoring core reads). -/
structure Settings where
  demo_mode : Bool
  hot_lead_threshold : ℤ
  warm_lead_threshold : ℤ
  weight_email_opens : ℚ
  weight_email_clicks : ℚ
  weight_website_visits : ℚ
  weight_crm_activities : ℚ
  weight_deal_stage : ℚ
  weight_company_size : ℚ
  weight_recency : ℚ
deriving DecidableEq, Repr

/-- The default field values of `Settings` in `src/config.py`. -/
def defaultSettings : Settings where
  demo_mode := true
  hot_lead_threshold := 75
  warm_lead_threshold := 50
  weight_email_opens := 1/4
  weight_email_clicks := 1/5
  weight_website_visits := 1/5
  weight_crm_activities := 3/20
  weight_deal_stage := 1/10
  weight_company_size := 1/20
  weight_recency := 1/20

/-- The sum computed inside `Settings.validate_weights`. -/
def Settings.weightTotal (s : Settings) : ℚ :=
  s.weight_email_opens
    + s.weight_email_clicks
    + s.weight_website_visits
    + s.weight_crm_activities
    + s.weight_deal_stage
    + s.weight_company_size
    + s.weight_recency

/-- Model of `Settings.validate_weights` (`src/config.py:53`): raises `ValueError`
when the weights are off by more than `0.001` from `1.0`. -/
def Settings.validate_weights (s : Settings) : Except String Unit :=
  if |s.weightTotal - 1| > 1/1000 then
    .error "Feature weights must sum to 1.0"
  else
    .ok ()

/-- Model of `ScoreCategory` from `src/models/lead.py`. -/
inductive ScoreCategory where
  | hot
  | warm
  | cold
deriving DecidableEq, Repr

/-- Model of `EngagementSummary` from `src/models/lead.py`; the `last_*` fields are
absolute day numbers. -/
structure EngagementSummary where
  email_opens : ℕ
  email_clicks : ℕ
  website_visits : ℕ
  crm_activities : ℕ
  last_email_open : Option ℤ
  last_website_visit : Option ℤ
  last_crm_activity : Option ℤ
deriving DecidableEq, Repr

/-- Model of `Lead` from `src/models/lead.py` (timestamps as day numbers). -/
structure Lead where
  id : String
  email : String
  name : Option String
  first_name : Option String
  last_name : Option String
  company : Option String
  job_title : Option String
  phone : Option String
  company_size : Option ℤ
  deal_stage : Option String
  created_at : ℤ
  last_activity : Option ℤ
  engagement : EngagementSummary
deriving DecidableEq, Repr

/-- Model of `LeadScore` from `src/models/lead.py`; the breakdown dict becomes an
association list in insertion order. -/
structure LeadScore where
  lead : Lead
  score : ℚ
  score_category : ScoreCategory
  score_breakdown : List (String × ℚ)
deriving DecidableEq, Repr

/-- Model of `LeadScorer` (`src/services/scorer.py`): holds the settings obtained
from `get_settings()`; its weights dict is a pass-through of the seven
`weight_*` settings fields. -/
structure LeadScorer where
  settings : Settings
deriving DecidableEq, Repr

/-- Model of `LeadScorer.__init__` via `get_settings()` (`src/config.py:68`):
`Settings()` is constructed and `validate_weights()` may raise before the
scorer exists. -/
def mkLeadScorer (env : Settings) : Except String LeadScorer :=
  match env.validate_weights with
  | .error e => .error e
  | .ok _ => .ok ⟨env⟩

/-- Round-half-to-even to an integer (the semantics of Python `round`). -/
def roundHalfEven (q : ℚ) : ℤ :=
  if q - ⌊q⌋ < 1/2 then ⌊q⌋
  else if q - ⌊q⌋ > 1/2 then ⌊q⌋ + 1
  else if ⌊q⌋ % 2 = 0 then ⌊q⌋ else ⌊q⌋ + 1

/-- Python `round(q, 2)`. -/
def round2 (q : ℚ) : ℚ := (roundHalfEven (q * 100) : ℚ) / 100

namespace LeadScorer

/-- The `recency_boost` local of `_score_email_opens`
(`src/services/scorer.py:99`). -/
def emailOpenBoost (now : ℤ) (lead : Lead) : ℚ :=
  match lead.engagement.last_email_open with
  | none => 1
  | some t =>
    let days_since := now - t
    if days_since ≤ 7 then 3/2
    else if days_since ≤ 30 then 6/5
    else 1

/-- Model of `_score_email_opens` (`src/services/scorer.py:92`). -/
def score_email_opens (now : ℤ) (lead : Lead) : ℚ :=
  let opens := lead.engagement.email_opens
  if opens = 0 then 0
  else
    let base_score := min 1 ((opens : ℚ) / 10)
    min 1 (base_score * emailOpenBoost now lead)

/-- Model of `_score_email_clicks` (`src/services/scorer.py:111`). -/
def score_email_clicks (lead : Lead) : ℚ :=
  min 1 ((lead.engagement.email_clicks : ℚ) / 5)

/-- The `recency_boost` local of `_score_website_visits`
(`src/services/scorer.py:124`). -/
def websiteVisitBoost (now : ℤ) (lead : Lead) : ℚ :=
  match lead.engagement.last_website_visit with
  | none => 1
  | some t =>
    let days_since := now - t
    if days_since ≤ 3 then 3/2
    else if days_since ≤ 7 then 6/5
    else 1

/-- Model of `_score_website_visits` (`src/services/scorer.py:117`). -/
def score_website_visits (now : ℤ) (lead : Lead) : ℚ :=
  let visits := lead.engagement.website_visits
  if visits = 0 then 0
  else
    let base_score := min 1 ((visits : ℚ) / 8)
    min 1 (base_score * websiteVisitBoost now lead)

/-- Model of `_score_crm_activities` (`src/services/scorer.py:136`). -/
def score_crm_activities (lead : Lead) : ℚ :=
  min 1 ((lead.engagement.crm_activities : ℚ) / 6)

/-- The `stage_scores` dict of `_score_deal_stage`
(`src/services/scorer.py:144`). -/
def stage_scores : List (String × ℚ) :=
  [("subscriber", 1/5),
   ("lead", 3/10),
   ("marketing_qualified", 1/2),
   ("qualified", 3/5),
   ("opportunity", 4/5),
   ("customer", 1)]

/-- Model of `_score_deal_stage` (`src/services/scorer.py:142`): `(deal_stage or
"").lower()` looked up with default `0.3`. -/
def score_deal_stage (lead : Lead) : ℚ :=
  (stage_scores.lookup (lead.deal_stage.getD "").toLower).getD (3/10)

/-- Model of `_score_company_size` (`src/services/scorer.py:155`); `some 0` falls in
the first branch because `0` is falsy in Python. -/
def score_company_size (lead : Lead) : ℚ :=
  match lead.company_size with
  | none => 3/10
  | some size =>
    if size = 0 then 3/10
    else if size ≤ 10 then 3/10
    else if size ≤ 50 then 1/2
    else if size ≤ 200 then 7/10
    else if size ≤ 1000 then 9/10
    else 1

/-- Model of `_score_recency` (`src/services/scorer.py:173`). -/
def score_recency (now : ℤ) (lead : Lead) : ℚ :=
  match lead.last_activity with
  | none => 0
  | some t =>
    let days_since := now - t
    if days_since ≤ 1 then 1
    else if days_since ≤ 3 then 4/5
    else if days_since ≤ 7 then 3/5
    else if days_since ≤ 14 then 2/5
    else if days_since ≤ 30 then 1/5
    else 0

/-- Model of `_categorize_score` (`src/services/scorer.py:193`). -/
def categorize_score (sc : LeadScorer) (score : ℚ) : ScoreCategory :=
  if score ≥ (sc.settings.hot_lead_threshold : ℚ) then .hot
  else if score ≥ (sc.settings.warm_lead_threshold : ℚ) then .warm
  else .cold

/-- Model of `score_lead` (`src/services/scorer.py:28`). -/
def score_lead (sc : LeadScorer) (now : ℤ) (lead : Lead) : LeadScore :=
  let s := sc.settings
  let email_opens_score := score_email_opens now lead
  let email_clicks_score := score_email_clicks lead
  let website_visits_score := score_website_visits now lead
  let crm_activities_score := score_crm_activities lead
  let deal_stage_score := score_deal_stage lead
  let company_size_score := score_company_size lead
  let recency_score := score_recency now lead
  let breakdown : List (String × ℚ) :=
    [("email_opens", email_opens_score),
     ("email_clicks", email_clicks_score),
     ("website_visits", website_visits_score),
     ("crm_activities", crm_activities_score),
     ("deal_stage", deal_stage_score),
     ("company_size", company_size_score),
     ("recency", recency_score)]
  let total_score :=
    email_opens_score * s.weight_email_opens
      + email_clicks_score * s.weight_email_clicks
      + website_visits_score * s.weight_website_visits
      + crm_activities_score * s.weight_crm_activities
      + deal_stage_score * s.weight_deal_stage
      + company_size_score * s.weight_company_size
      + recency_score * s.weight_recency
  let final_score := min 100 (max 0 (total_score * 100))
  { lead := lead
    score := round2 final_score
    score_category := sc.categorize_score final_score
    score_breakdown := breakdown }

/-- The descending-score order used by `score_leads`'s
`sort(key=..., reverse=True)`. -/
def scoreDesc (a b : LeadScore) : Prop := b.score ≤ a.score

instance : DecidableRel scoreDesc := fun a b =>
  inferInstanceAs (Decidable (b.score ≤ a.score))

instance : IsTotal LeadScore scoreDesc := ⟨fun a b => le_total b.score a.score⟩

instance : IsTrans LeadScore scoreDesc :=
  ⟨fun _ _ _ hab hbc => le_trans hbc hab⟩

/-- Model of `score_leads` (`src/services/scorer.py:81`): score each lead, then a
stable descending sort by score (Python `list.sort` is stable; modelled by
stable insertion sort). -/
def score_leads (sc : LeadScorer) (now : ℤ) (leads : List Lead) :
    List LeadScore :=
  List.insertionSort scoreDesc (leads.map (sc.score_lead now))

end LeadScorer

namespace HubSpotClient

/-- Model of `_get_demo_contacts` (`src/services/hubspot.py:132`), with `timedelta`
offsets converted to whole-day differences from `now` (sub-day offsets give
a day difference of `0`). -/
def get_demo_contacts (now : ℤ) : List Lead :=
  [{ id := "demo-1"
     email := "sarah.johnson@techcorp.com"
     name := some "Sarah Johnson"
     first_name := some "Sarah"
     last_name := some "Johnson"
     company := some "TechCorp Industries"
     job_title := some "VP of Engineering"
     phone := some "+1-555-0101"
     company_size := some 250
     deal_stage := some "opportunity"
     created_at := now - 30
     last_activity := some now
     engagement :=
       { email_opens := 15
         email_clicks := 8
         website_visits := 12
         crm_activities := 6
         last_email_open := some now
         last_website_visit := some now
         last_crm_activity := some (now - 1) } },
   { id := "demo-2"
     email := "michael.chen@startupco.io"
     name := some "Michael Chen"
     first_name := some "Michael"
     last_name := some "Chen"
     company := some "StartupCo"
     job_title := some "CTO"
     phone := some "+1-555-0102"
     company_size := some 25
     deal_stage := some "qualified"
     created_at := now - 15
     last_activity := some (now - 7)
     engagement :=
       { email_opens := 3
         email_clicks := 1
         website_visits := 2
         crm_activities := 1
         last_email_open := some (now - 7)
         last_website_visit := some (now - 10)
         last_crm_activity := some (now - 14) } },
   { id := "demo-3"
     email := "jennifer.martinez@enterprise.com"
     name := some "Jennifer Martinez"
     first_name := some "Jennifer"
     last_name := some "Martinez"
     company := some "Enterprise Solutions Inc"
     job_title := some "Director of Sales"
     phone := some "+1-555-0103"
     company_size := some 5000
     deal_stage := some "opportunity"
     created_at := now - 45
     last_activity := some now
     engagement :=
       { email_opens := 22
         email_clicks := 12
         website_visits := 18
         crm_activities := 10
         last_email_open := some now
         last_website_visit := some now
         last_crm_activity := some now } },
   { id := "demo-4"
     email := "david.kim@smallbiz.net"
     name := some "David Kim"
     first_name := some "David"
     last_name := some "Kim"
     company := some "Small Business LLC"
     job_title := some "Owner"
     phone := some "+1-555-0104"
     company_size := some 5
     deal_stage := some "subscriber"
     created_at := now - 60
     last_activity := some (now - 30)
     engagement :=
       { email_opens := 1
         email_clicks := 0
         website_visits := 1
         crm_activities := 0
         last_email_open := some (now - 30)
         last_website_visit := some (now - 45)
         last_crm_activity := none } },
   { id := "demo-5"
     email := "amanda.williams@growthco.com"
     name := some "Amanda Williams"
     first_name := some "Amanda"
     last_name := some "Williams"
     company := some "GrowthCo"
     job_title := some "Head of Marketing"
     phone := some "+1-555-0105"
     company_size := some 150
     deal_stage := some "opportunity"
     created_at := now - 20
     last_activity := some now
     engagement :=
       { email_opens := 10
         email_clicks := 6
         website_visits := 8
         crm_activities := 4
         last_email_open := some now
         last_website_visit := some now
         last_crm_activity := some (now - 2) } }]

/-- Model of `get_contacts` (`src/services/hubspot.py:26`). The whole `try` body —
HTTP request, JSON decoding and `_parse_contact` on every result — is
modelled by its outcome `attempt`: `.error` when anything in it raised
(unreachable host, malformed payload), `.ok leads` otherwise. The
`except` clause logs and returns `[]`. -/
def get_contacts (now : ℤ) (demo_mode : Bool)
    (attempt : Except String (List Lead)) : List Lead :=
  if demo_mode then get_demo_contacts now
  else
    match attempt with
    | .ok leads => leads
    | .error _ => []

end HubSpotClient

/-- Model of `AlertConfig` from `src/api/alerts.py`. -/
structure AlertConfig where
  hot_threshold : ℤ
  warm_threshold : ℤ
  enable_slack : Bool
deriving DecidableEq, Repr

/-- Pydantic validation of `AlertConfig` (`Field(ge=0, le=100)` on both
thresholds, `src/api/alerts.py:16`): a request outside the bounds is
rejected before the endpoint body runs. -/
def mkAlertConfig (hot warm : ℤ) (slack : Bool) : Except String AlertConfig :=
  if 0 ≤ hot ∧ hot ≤ 100 ∧ 0 ≤ warm ∧ warm ≤ 100 then
    .ok ⟨hot, warm, slack⟩
  else
    .error "validation error"

/-- Model of `update_alert_config` (`src/api/alerts.py:32`): rejects
`warm_threshold >= hot_threshold` with HTTP 400 leaving the settings as they
were, otherwise returns the settings with both thresholds replaced. -/
def update_alert_config (s : Settings) (config : AlertConfig) :
    Except String Settings :=
  if config.warm_threshold ≥ config.hot_threshold then
    .error "Warm threshold must be less than hot threshold"
  else
    .ok { s with
          hot_lead_threshold := config.hot_threshold
          warm_lead_threshold := config.warm_threshold }

/-! ## Range lemmas for the seven feature scorers -/

namespace LeadScorer

lemma emailOpenBoost_nonneg (now : ℤ) (lead : Lead) :
    0 ≤ emailOpenBoost now lead := by
  cases h : lead.engagement.last_email_open with
  | none => simp [emailOpenBoost, h]
  | some t =>
    simp only [emailOpenBoost, h]
    split_ifs <;> norm_num

lemma websiteVisitBoost_nonneg (now : ℤ) (lead : Lead) :
    0 ≤ websiteVisitBoost now lead := by
  cases h : lead.engagement.last_website_visit with
  | none => simp [websiteVisitBoost, h]
  | some t =>
    simp only [websiteVisitBoost, h]
    split_ifs <;> norm_num

lemma score_email_opens_mem (now : ℤ) (lead : Lead) :
    0 ≤ score_email_opens now lead ∧ score_email_opens now lead ≤ 1 := by
  simp only [score_email_opens]
  split_ifs with h
  · norm_num
  · refine ⟨le_min (by norm_num) ?_, min_le_left _ _⟩
    exact mul_nonneg (le_min (by norm_num) (by positivity))
      (emailOpenBoost_nonneg now lead)

lemma score_email_clicks_mem (lead : Lead) :
    0 ≤ score_email_clicks lead ∧ score_email_clicks lead ≤ 1 := by
  simp only [score_email_clicks]
  exact ⟨le_min (by norm_num) (by positivity), min_le_left _ _⟩

lemma score_website_visits_mem (now : ℤ) (lead : Lead) :
    0 ≤ score_website_visits now lead ∧ score_website_visits now lead ≤ 1 := by
  simp only [score_website_visits]
  split_ifs with h
  · norm_num
  · refine ⟨le_min (by norm_num) ?_, min_le_left _ _⟩
    exact mul_nonneg (le_min (by norm_num) (by positivity))
      (websiteVisitBoost_nonneg now lead)

lemma score_crm_activities_mem (lead : Lead) :
    0 ≤ score_crm_activities lead ∧ score_crm_activities lead ≤ 1 := by
  simp only [score_crm_activities]
  exact ⟨le_min (by norm_num) (by positivity), min_le_left _ _⟩

lemma lookup_getD_mem {l : List (String × ℚ)} {d : ℚ} (key : String)
    (hl : ∀ p ∈ l, 0 ≤ p.2 ∧ p.2 ≤ 1) (hd : 0 ≤ d ∧ d ≤ 1) :
    0 ≤ (l.lookup key).getD d ∧ (l.lookup key).getD d ≤ 1 := by
  induction l with
  | nil => simpa [List.lookup] using hd
  | cons p t ih =>
    obtain ⟨k, v⟩ := p
    by_cases hk : key = k
    · simpa [List.lookup, hk] using hl ⟨k, v⟩ (List.mem_cons_self _ _)
    · have hk' : (key == k) = false := beq_false_of_ne hk
      simpa [List.lookup, hk'] using
        ih (fun p hp => hl p (List.mem_cons_of_mem _ hp))

lemma score_deal_stage_mem (lead : Lead) :
    0 ≤ score_deal_stage lead ∧ score_deal_stage lead ≤ 1 := by
  simp only [score_deal_stage]
  refine lookup_getD_mem _ ?_ (by norm_num)
  intro p hp
  simp only [stage_scores, List.mem_cons, List.not_mem_nil, or_false] at hp
  rcases hp with h | h | h | h | h | h <;> subst h <;> norm_num

lemma score_company_size_mem (lead : Lead) :
    0 ≤ score_company_size lead ∧ score_company_size lead ≤ 1 := by
  cases h : lead.company_size with
  | none => simp [score_company_size, h]; norm_num
  | some size =>
    simp only [score_company_size, h]
    split_ifs <;> norm_num

lemma score_recency_mem (now : ℤ) (lead : Lead) :
    0 ≤ score_recency now lead ∧ score_recency now lead ≤ 1 := by
  cases h : lead.last_activity with
  | none => simp [score_recency, h]
  | some t =>
    simp only [score_recency, h]
    split_ifs <;> norm_num

end LeadScorer

/-- Claim C2: For every lead (engagement counts are non-negative integers by
construction of `EngagementSummary`), each of the seven feature scorers
returns a value in `[0,1]`; in particular the ×1.5/×1.2 recency boosts on
email opens and website visits are clamped back to at most `1`. -/
theorem feature_scorers_unit_interval (now : ℤ) (lead : Lead) :
    (0 ≤ LeadScorer.score_email_opens now lead
      ∧ LeadScorer.score_email_opens now lead ≤ 1)
    ∧ (0 ≤ LeadScorer.score_email_clicks lead
      ∧ LeadScorer.score_email_clicks lead ≤ 1)
    ∧ (0 ≤ LeadScorer.score_website_visits now lead
      ∧ LeadScorer.score_website_visits now lead ≤ 1)
    ∧ (0 ≤ LeadScorer.score_crm_activities lead
      ∧ LeadScorer.score_crm_activities lead ≤ 1)
    ∧ (0 ≤ LeadScorer.score_deal_stage lead
      ∧ LeadScorer.score_deal_stage lead ≤ 1)
    ∧ (0 ≤ LeadScorer.score_company_size lead
      ∧ LeadScorer.score_company_size lead ≤ 1)
    ∧ (0 ≤ LeadScorer.score_recency now lead
      ∧ LeadScorer.score_recency now lead ≤ 1) :=
  ⟨LeadScorer.score_email_opens_mem now lead,
   LeadScorer.score_email_clicks_mem lead,
   LeadScorer.score_website_visits_mem now lead,
   LeadScorer.score_crm_activities_mem lead,
   LeadScorer.score_deal_stage_mem lead,
   LeadScorer.score_company_size_mem lead,
   LeadScorer.score_recency_mem now lead⟩

/-! ## Rounding bounds -/

lemma roundHalfEven_nonneg {q : ℚ} (h : 0 ≤ q) : 0 ≤ roundHalfEven q := by
  have hf : (0 : ℤ) ≤ ⌊q⌋ := Int.floor_nonneg.mpr h
  unfold roundHalfEven
  split_ifs <;> omega

lemma roundHalfEven_le {q : ℚ} {n : ℤ} (h : q ≤ (n : ℚ)) :
    roundHalfEven q ≤ n := by
  have hf : ⌊q⌋ ≤ n := by
    have := Int.floor_le_floor h
    rwa [Int.floor_intCast] at this
  have hfl : (⌊q⌋ : ℚ) ≤ q := Int.floor_le q
  unfold roundHalfEven
  split_ifs with h1 h2 h3
  · exact hf
  · have : (⌊q⌋ : ℚ) < (n : ℚ) := by linarith
    have : ⌊q⌋ < n := by exact_mod_cast this
    omega
  · exact hf
  · have h2' : q - ⌊q⌋ = 1/2 := le_antisymm (not_lt.mp h2) (not_lt.mp h1)
    have : (⌊q⌋ : ℚ) < (n : ℚ) := by linarith
    have : ⌊q⌋ < n := by exact_mod_cast this
    omega

lemma round2_nonneg {q : ℚ} (h : 0 ≤ q) : 0 ≤ round2 q := by
  unfold round2
  have : (0 : ℤ) ≤ roundHalfEven (q * 100) :=
    roundHalfEven_nonneg (by positivity)
  positivity

lemma round2_le_100 {q : ℚ} (h : q ≤ 100) : round2 q ≤ 100 := by
  have h1 : roundHalfEven (q * 100) ≤ (10000 : ℤ) :=
    roundHalfEven_le (by push_cast; linarith)
  have h2 : ((roundHalfEven (q * 100) : ℤ) : ℚ) ≤ 10000 := by exact_mod_cast h1
  unfold round2
  linarith

/-! ## The aggregation formula of the spec (§4.2) -/

/-- The spec's aggregation formula, written as its words say:
`clamp(0,100, 100 × Σ(sub_score_i × weight_i))` with the seven sub-scores. -/
def specFinalScore (s : Settings) (now : ℤ) (lead : Lead) : ℚ :=
  min 100 (max 0 (100 *
    ([LeadScorer.score_email_opens now lead * s.weight_email_opens,
      LeadScorer.score_email_clicks lead * s.weight_email_clicks,
      LeadScorer.score_website_visits now lead * s.weight_website_visits,
      LeadScorer.score_crm_activities lead * s.weight_crm_activities,
      LeadScorer.score_deal_stage lead * s.weight_deal_stage,
      LeadScorer.score_company_size lead * s.weight_company_size,
      LeadScorer.score_recency now lead * s.weight_recency].sum)))

/-- Claim C1: The final score of `score_lead` is
`clamp(0,100, 100 × Σ(sub_score_i × weight_i))` rounded to two decimals,
hence lies in `[0,100]`, and the breakdown stores each unweighted,
unrounded sub-score keyed by its feature name. -/
theorem score_lead_final_formula (sc : LeadScorer) (now : ℤ) (lead : Lead) :
    (sc.score_lead now lead).score = round2 (specFinalScore sc.settings now lead)
    ∧ 0 ≤ (sc.score_lead now lead).score
    ∧ (sc.score_lead now lead).score ≤ 100
    ∧ (sc.score_lead now lead).score_breakdown =
      [("email_opens", LeadScorer.score_email_opens now lead),
       ("email_clicks", LeadScorer.score_email_clicks lead),
       ("website_visits", LeadScorer.score_website_visits now lead),
       ("crm_activities", LeadScorer.score_crm_activities lead),
       ("deal_stage", LeadScorer.score_deal_stage lead),
       ("company_size", LeadScorer.score_company_size lead),
       ("recency", LeadScorer.score_recency now lead)] := by
  refine ⟨?_, ?_, ?_, rfl⟩
  · show round2 _ = round2 (specFinalScore sc.settings now lead)
    unfold specFinalScore
    simp only [List.sum_cons, List.sum_nil]
    ring_nf
  · exact round2_nonneg (le_min (by norm_num) (le_max_left _ _)
      |>.trans (le_of_eq rfl)) |>.trans_eq rfl
  · exact round2_le_100 (min_le_left _ _)

/-- Claim C10: The breakdown map of every `LeadScore` produced by `score_lead`
has exactly the seven feature keys, in insertion order, whatever optional
fields the lead omits. -/
theorem score_breakdown_keys (sc : LeadScorer) (now : ℤ) (lead : Lead) :
    (sc.score_lead now lead).score_breakdown.map Prod.fst =
      ["email_opens", "email_clicks", "website_visits", "crm_activities",
       "deal_stage", "company_size", "recency"] := rfl

/-! ## Stable sorting of `score_leads` -/

namespace LeadScorer

lemma filter_orderedInsert (q : ℚ) (a : LeadScore) (l : List LeadScore) :
    (List.orderedInsert scoreDesc a l).filter (fun x => decide (x.score = q)) =
      if a.score = q then
        a :: l.filter (fun x => decide (x.score = q))
      else
        l.filter (fun x => decide (x.score = q)) := by
  induction l with
  | nil => by_cases h : a.score = q <;> simp [List.orderedInsert, h]
  | cons b t ih =>
    rw [List.orderedInsert]
    by_cases hab : scoreDesc a b
    · rw [if_pos hab]
      by_cases ha : a.score = q <;> simp [List.filter_cons, ha]
    · rw [if_neg hab]
      by_cases ha : a.score = q
      · have hb : ¬ b.score = q := fun hb =>
          hab (show scoreDesc a b from le_of_eq (hb.trans ha.symm))
        simp [List.filter_cons, hb, ih, ha]
      · by_cases hb : b.score = q <;> simp [List.filter_cons, hb, ih, ha]

lemma filter_insertionSort_score (q : ℚ) (l : List LeadScore) :
    (List.insertionSort scoreDesc l).filter (fun x => decide (x.score = q)) =
      l.filter (fun x => decide (x.score = q)) := by
  induction l with
  | nil => rfl
  | cons a t ih =>
    by_cases ha : a.score = q <;>
      simp [List.insertionSort, filter_orderedInsert, ih, List.filter_cons, ha]

end LeadScorer

/-- Claim C3: the function `score_leads` returns one `LeadScore` per input lead (a
permutation of the individually scored list, so also the same length),
sorted by final score descending; ties keep the input's relative order
(for each score value, filtering the output to that value gives exactly
the input's subsequence); the empty input yields the empty list. -/
theorem score_leads_sorted_stable (sc : LeadScorer) (now : ℤ)
    (leads : List Lead) :
    (sc.score_leads now leads).length = leads.length
    ∧ (sc.score_leads now leads).Perm (leads.map (sc.score_lead now))
    ∧ List.Sorted LeadScorer.scoreDesc (sc.score_leads now leads)
    ∧ (∀ q : ℚ,
        (sc.score_leads now leads).filter (fun x => decide (x.score = q)) =
          (leads.map (sc.score_lead now)).filter (fun x => decide (x.score = q)))
    ∧ sc.score_leads now [] = [] := by
  refine ⟨?_, ?_, ?_, ?_, rfl⟩
  · rw [LeadScorer.score_leads, List.length_insertionSort, List.length_map]
  · exact List.perm_insertionSort _ _
  · exact List.sorted_insertionSort _ _
  · intro q
    exact LeadScorer.filter_insertionSort_score q _

/-! ## Categorization, weight validation, threshold updates -/

/-- Claim C4: With `warm_threshold < hot_threshold`, `_categorize_score`
returns HOT iff the score is ≥ the hot threshold, WARM when it is below
hot but ≥ warm, COLD below warm; the boundaries are inclusive: exactly the
hot threshold is HOT, exactly the warm threshold is WARM, one unit below
the warm threshold is COLD. -/
theorem categorize_score_boundaries (sc : LeadScorer) (score : ℚ)
    (h : sc.settings.warm_lead_threshold < sc.settings.hot_lead_threshold) :
    ((sc.settings.hot_lead_threshold : ℚ) ≤ score →
      sc.categorize_score score = .hot)
    ∧ (score < (sc.settings.hot_lead_threshold : ℚ) →
        (sc.settings.warm_lead_threshold : ℚ) ≤ score →
        sc.categorize_score score = .warm)
    ∧ (score < (sc.settings.warm_lead_threshold : ℚ) →
        sc.categorize_score score = .cold)
    ∧ sc.categorize_score (sc.settings.hot_lead_threshold : ℚ) = .hot
    ∧ sc.categorize_score (sc.settings.warm_lead_threshold : ℚ) = .warm
    ∧ sc.categorize_score ((sc.settings.warm_lead_threshold : ℚ) - 1) =
        .cold := by
  have hq : (sc.settings.warm_lead_threshold : ℚ) <
      (sc.settings.hot_lead_threshold : ℚ) := by exact_mod_cast h
  refine ⟨fun h1 => ?_, fun h1 h2 => ?_, fun h1 => ?_, ?_, ?_, ?_⟩ <;>
    unfold LeadScorer.categorize_score <;>
    split_ifs <;> first | rfl | linarith

/-- Witness for `categorize_score_boundaries` at the default thresholds
(hot 75, warm 50) and score 60. -/
theorem categorize_score_boundaries_witness :
    (50 : ℤ) < 75
    ∧ LeadScorer.categorize_score ⟨defaultSettings⟩ 60 = .warm
    ∧ LeadScorer.categorize_score ⟨defaultSettings⟩ 75 = .hot
    ∧ LeadScorer.categorize_score ⟨defaultSettings⟩ 49 = .cold := by
  have hlt : (⟨defaultSettings⟩ : LeadScorer).settings.warm_lead_threshold <
      (⟨defaultSettings⟩ : LeadScorer).settings.hot_lead_threshold := by
    norm_num [defaultSettings]
  have h60 := categorize_score_boundaries ⟨defaultSettings⟩ 60 hlt
  have h49 := categorize_score_boundaries ⟨defaultSettings⟩ 49 hlt
  refine ⟨by norm_num, ?_, ?_, ?_⟩
  · exact h60.2.1 (by norm_num [defaultSettings])
      (by norm_num [defaultSettings])
  · simpa [defaultSettings] using h60.2.2.2.1
  · exact h49.2.2.1 (by norm_num [defaultSettings])

/-- Claim C5: Constructing the scorer with weights whose sum is off from `1`
by more than `0.001` — in particular summing to `0.5` or `1.5` — fails
before any scoring occurs (the `Except` is an error, no scorer value
exists), and a successful construction passes the settings' weights through
unchanged (never renormalized). -/
theorem mkLeadScorer_weight_validation (env : Settings) :
    (1/1000 < |env.weightTotal - 1| →
      mkLeadScorer env = .error "Feature weights must sum to 1.0")
    ∧ (env.weightTotal = 1/2 →
        mkLeadScorer env = .error "Feature weights must sum to 1.0")
    ∧ (env.weightTotal = 3/2 →
        mkLeadScorer env = .error "Feature weights must sum to 1.0")
    ∧ (∀ sc, mkLeadScorer env = .ok sc → sc.settings = env) := by
  refine ⟨fun h => ?_, fun h => ?_, fun h => ?_, fun sc hsc => ?_⟩
  · unfold mkLeadScorer Settings.validate_weights
    rw [if_pos h]
  · unfold mkLeadScorer Settings.validate_weights
    rw [if_pos (by
      rw [h, show (1/2 : ℚ) - 1 = -(1/2) by norm_num, abs_neg,
        abs_of_nonneg (by norm_num : (0:ℚ) ≤ 1/2)]
      norm_num)]
  · unfold mkLeadScorer Settings.validate_weights
    rw [if_pos (by
      rw [h, show (3/2 : ℚ) - 1 = 1/2 by norm_num,
        abs_of_nonneg (by norm_num : (0:ℚ) ≤ 1/2)]
      norm_num)]
  · unfold mkLeadScorer Settings.validate_weights at hsc
    by_cases h : |env.weightTotal - 1| > 1/1000
    · rw [if_pos h] at hsc
      exact Except.noConfusion hsc
    · rw [if_neg h] at hsc
      cases hsc
      rfl

/-- A settings record whose seven weights sum to `0.5`. -/
def halfWeightSettings : Settings :=
  { defaultSettings with
    weight_email_opens := 0
    weight_email_clicks := 0
    weight_company_size := 0 }

/-- Witness for `mkLeadScorer_weight_validation`: weights summing to `0.5`
are rejected, and the default weights (summing to `1`) construct a scorer
holding them unchanged. -/
theorem mkLeadScorer_weight_validation_witness :
    halfWeightSettings.weightTotal = 1/2
    ∧ mkLeadScorer halfWeightSettings =
        .error "Feature weights must sum to 1.0"
    ∧ (mkLeadScorer defaultSettings = .ok ⟨defaultSettings⟩
       ∧ ∀ sc, mkLeadScorer defaultSettings = .ok sc →
           sc.settings = defaultSettings) := by
  have htot : halfWeightSettings.weightTotal = 1/2 := by
    norm_num [halfWeightSettings, defaultSettings, Settings.weightTotal]
  refine ⟨htot, (mkLeadScorer_weight_validation halfWeightSettings).2.1 htot,
    ?_, fun sc h => (mkLeadScorer_weight_validation defaultSettings).2.2.2 sc h⟩
  unfold mkLeadScorer Settings.validate_weights
  rw [if_neg (by
    rw [show defaultSettings.weightTotal - 1 = 0 by
        norm_num [Settings.weightTotal, defaultSettings],
      abs_zero]
    norm_num)]

/-- Claim C6: A threshold update violating `warm < hot` is rejected by the
endpoint with an error (no modified settings are produced — the
configuration is left as it was), one placing a threshold outside `[0,100]`
is rejected by request validation, and an in-range update with
`warm < hot` is accepted, replacing exactly the two thresholds. -/
theorem update_alert_config_validation (s : Settings) (hot warm : ℤ)
    (slack : Bool) :
    (¬(0 ≤ hot ∧ hot ≤ 100 ∧ 0 ≤ warm ∧ warm ≤ 100) →
      mkAlertConfig hot warm slack = .error "validation error")
    ∧ (∀ cfg, mkAlertConfig hot warm slack = .ok cfg →
        (hot ≤ warm → update_alert_config s cfg =
          .error "Warm threshold must be less than hot threshold")
        ∧ (warm < hot → update_alert_config s cfg =
            .ok { s with
                  hot_lead_threshold := hot
                  warm_lead_threshold := warm })) := by
  constructor
  · intro h
    unfold mkAlertConfig
    rw [if_neg h]
  · intro cfg hcfg
    unfold mkAlertConfig at hcfg
    by_cases hr : 0 ≤ hot ∧ hot ≤ 100 ∧ 0 ≤ warm ∧ warm ≤ 100
    · rw [if_pos hr] at hcfg
      cases hcfg
      constructor
      · intro hlt
        unfold update_alert_config
        rw [if_pos hlt]
      · intro hlt
        unfold update_alert_config
        rw [if_neg (not_le.mpr hlt)]
    · rw [if_neg hr] at hcfg
      exact Except.noConfusion hcfg

/-- Witness for `update_alert_config_validation`: an out-of-range request
(hot = 120) is rejected at validation, a request with warm ≥ hot
(80 ≥ 80) is rejected by the endpoint, and (hot 80, warm 60) is accepted
with exactly the thresholds replaced. -/
theorem update_alert_config_validation_witness :
    mkAlertConfig 120 50 false = .error "validation error"
    ∧ update_alert_config defaultSettings ⟨80, 80, false⟩ =
        .error "Warm threshold must be less than hot threshold"
    ∧ update_alert_config defaultSettings ⟨80, 60, false⟩ =
        .ok { defaultSettings with
              hot_lead_threshold := 80
              warm_lead_threshold := 60 } := by
  refine ⟨(update_alert_config_validation defaultSettings 120 50 false).1
      (by norm_num), ?_, ?_⟩
  · exact ((update_alert_config_validation defaultSettings 80 80 false).2
      ⟨80, 80, false⟩ (by norm_num [mkAlertConfig])).1 le_rfl
  · exact ((update_alert_config_validation defaultSettings 80 60 false).2
      ⟨80, 60, false⟩ (by norm_num [mkAlertConfig])).2 (by norm_num)

/-! ## Monotonicity in the engagement counts -/

/-- The lead with its email-open count replaced, all else fixed. -/
def Lead.withEmailOpens (l : Lead) (n : ℕ) : Lead :=
  { l with engagement := { l.engagement with email_opens := n } }

/-- The lead with its email-click count replaced, all else fixed. -/
def Lead.withEmailClicks (l : Lead) (n : ℕ) : Lead :=
  { l with engagement := { l.engagement with email_clicks := n } }

/-- The lead with its website-visit count replaced, all else fixed. -/
def Lead.withWebsiteVisits (l : Lead) (n : ℕ) : Lead :=
  { l with engagement := { l.engagement with website_visits := n } }

/-- The lead with its CRM-activity count replaced, all else fixed. -/
def Lead.withCrmActivities (l : Lead) (n : ℕ) : Lead :=
  { l with engagement := { l.engagement with crm_activities := n } }

/-- Claim C7: Increasing any single engagement count while holding every
other field of the lead fixed never decreases the corresponding feature's
sub-score. -/
theorem engagement_scores_monotone (now : ℤ) (l : Lead) (m n : ℕ)
    (h : m ≤ n) :
    LeadScorer.score_email_opens now (l.withEmailOpens m) ≤
      LeadScorer.score_email_opens now (l.withEmailOpens n)
    ∧ LeadScorer.score_email_clicks (l.withEmailClicks m) ≤
        LeadScorer.score_email_clicks (l.withEmailClicks n)
    ∧ LeadScorer.score_website_visits now (l.withWebsiteVisits m) ≤
        LeadScorer.score_website_visits now (l.withWebsiteVisits n)
    ∧ LeadScorer.score_crm_activities (l.withCrmActivities m) ≤
        LeadScorer.score_crm_activities (l.withCrmActivities n) := by
  have hmn : (m : ℚ) ≤ (n : ℚ) := by exact_mod_cast h
  refine ⟨?_, ?_, ?_, ?_⟩
  · by_cases hm : m = 0
    · rw [show LeadScorer.score_email_opens now (l.withEmailOpens m) = 0 by
        simp [LeadScorer.score_email_opens, Lead.withEmailOpens, hm]]
      exact (LeadScorer.score_email_opens_mem now (l.withEmailOpens n)).1
    · have hn : n ≠ 0 := by omega
      have hB : 0 ≤ LeadScorer.emailOpenBoost now l :=
        LeadScorer.emailOpenBoost_nonneg now l
      have hBm : LeadScorer.emailOpenBoost now (l.withEmailOpens m) =
          LeadScorer.emailOpenBoost now l := rfl
      have hBn : LeadScorer.emailOpenBoost now (l.withEmailOpens n) =
          LeadScorer.emailOpenBoost now l := rfl
      simp only [LeadScorer.score_email_opens, Lead.withEmailOpens, hm, hn,
        if_false, hBm, hBn]
      refine min_le_min le_rfl (mul_le_mul_of_nonneg_right ?_ hB)
      exact min_le_min le_rfl ((div_le_div_iff_of_pos_right (by norm_num : (0:ℚ) < 10)).mpr hmn)
  · simp only [LeadScorer.score_email_clicks, Lead.withEmailClicks]
    exact min_le_min le_rfl ((div_le_div_iff_of_pos_right (by norm_num : (0:ℚ) < 5)).mpr hmn)
  · by_cases hm : m = 0
    · rw [show LeadScorer.score_website_visits now (l.withWebsiteVisits m) = 0
        by simp [LeadScorer.score_website_visits, Lead.withWebsiteVisits, hm]]
      exact (LeadScorer.score_website_visits_mem now
        (l.withWebsiteVisits n)).1
    · have hn : n ≠ 0 := by omega
      have hB : 0 ≤ LeadScorer.websiteVisitBoost now l :=
        LeadScorer.websiteVisitBoost_nonneg now l
      have hBm : LeadScorer.websiteVisitBoost now (l.withWebsiteVisits m) =
          LeadScorer.websiteVisitBoost now l := rfl
      have hBn : LeadScorer.websiteVisitBoost now (l.withWebsiteVisits n) =
          LeadScorer.websiteVisitBoost now l := rfl
      simp only [LeadScorer.score_website_visits, Lead.withWebsiteVisits, hm,
        hn, if_false, hBm, hBn]
      refine min_le_min le_rfl (mul_le_mul_of_nonneg_right ?_ hB)
      exact min_le_min le_rfl ((div_le_div_iff_of_pos_right (by norm_num : (0:ℚ) < 8)).mpr hmn)
  · simp only [LeadScorer.score_crm_activities, Lead.withCrmActivities]
    exact min_le_min le_rfl ((div_le_div_iff_of_pos_right (by norm_num : (0:ℚ) < 6)).mpr hmn)

/-- A concrete lead used to instantiate theorems with hypotheses. -/
def witnessLead : Lead where
  id := "w-1"
  email := "w@example.com"
  name := none
  first_name := none
  last_name := none
  company := none
  job_title := none
  phone := none
  company_size := none
  deal_stage := none
  created_at := 0
  last_activity := none
  engagement :=
    { email_opens := 0
      email_clicks := 0
      website_visits := 0
      crm_activities := 0
      last_email_open := none
      last_website_visit := none
      last_crm_activity := none }

/-- Witness for `engagement_scores_monotone` at counts 2 ≤ 9 on a bare
lead. -/
theorem engagement_scores_monotone_witness :
    (2 : ℕ) ≤ 9
    ∧ LeadScorer.score_email_clicks (witnessLead.withEmailClicks 2) ≤
        LeadScorer.score_email_clicks (witnessLead.withEmailClicks 9) := by
  exact ⟨by norm_num,
    (engagement_scores_monotone 0 witnessLead 2 9 (by norm_num)).2.1⟩

/-! ## Recency scoring -/

/-- Claim C8: the function `_score_recency` is the documented step function of the days
since `last_activity`: absent activity scores `0`; at `d` days it scores
`1` for `d ≤ 1`, `0.8` up to `3`, `0.6` up to `7`, `0.4` up to `14`,
`0.2` up to `30`, else `0`; and of two leads identical except for
`last_activity` the more recent one scores at least the older one. -/
theorem score_recency_step_and_dominance (now : ℤ) (l : Lead) :
    (l.last_activity = none → LeadScorer.score_recency now l = 0)
    ∧ (∀ d : ℤ, l.last_activity = some (now - d) →
        ((d ≤ 1 → LeadScorer.score_recency now l = 1)
         ∧ (1 < d → d ≤ 3 → LeadScorer.score_recency now l = 4/5)
         ∧ (3 < d → d ≤ 7 → LeadScorer.score_recency now l = 3/5)
         ∧ (7 < d → d ≤ 14 → LeadScorer.score_recency now l = 2/5)
         ∧ (14 < d → d ≤ 30 → LeadScorer.score_recency now l = 1/5)
         ∧ (30 < d → LeadScorer.score_recency now l = 0)))
    ∧ (∀ t1 t2 : ℤ, t1 ≤ t2 →
        LeadScorer.score_recency now { l with last_activity := some t1 } ≤
          LeadScorer.score_recency now { l with last_activity := some t2 }) := by
  refine ⟨fun h => by simp [LeadScorer.score_recency, h], fun d hd => ?_, ?_⟩
  · have hnd : now - (now - d) = d := by ring
    refine ⟨fun h1 => ?_, fun h1 h2 => ?_, fun h1 h2 => ?_, fun h1 h2 => ?_,
      fun h1 h2 => ?_, fun h1 => ?_⟩ <;>
      simp only [LeadScorer.score_recency, hd, hnd] <;>
      split_ifs <;> first | rfl | omega
  · intro t1 t2 ht
    simp only [LeadScorer.score_recency]
    split_ifs
    all_goals try (exfalso; omega)
    all_goals norm_num

/-- Witness for `score_recency_step_and_dominance` at `now = 100`: a lead
last active on day 95 (5 days ago) scores `0.6`, and day 95 dominates
day 70. -/
theorem score_recency_step_and_dominance_witness :
    LeadScorer.score_recency 100
        { witnessLead with last_activity := some 95 } = 3/5
    ∧ LeadScorer.score_recency 100
          { witnessLead with last_activity := some 70 } ≤
        LeadScorer.score_recency 100
          { witnessLead with last_activity := some 95 } := by
  constructor
  · exact ((score_recency_step_and_dominance 100
      { witnessLead with last_activity := some 95 }).2.1 5
      (by norm_num)).2.2.1 (by norm_num) (by norm_num)
  · exact (score_recency_step_and_dominance 100 witnessLead).2.2 70 95
      (by norm_num)

/-! ## Fetch failure containment -/

/-- Claim C9: When the fetch attempt fails (`.error`: unreachable data source
or malformed payload), `get_contacts` returns the empty list — as a total
function it never raises to its caller — and scoring that empty list
no-ops, returning the empty sequence. -/
theorem get_contacts_failure_empty (now : ℤ) (e : String)
    (sc : LeadScorer) :
    HubSpotClient.get_contacts now false (.error e) = []
    ∧ sc.score_leads now (HubSpotClient.get_contacts now false (.error e)) =
        [] :=
  ⟨rfl, rfl⟩

end Leadscore
